import Mathlib

/-!
Verification development for a small HTTP service (`src/main.py`):
a static in-memory catalog, item lookup by id, case-insensitive
name/price search, an echo-style create endpoint, two error-simulation
endpoints, and observability wiring (metrics exposition, span export,
startup/shutdown lifecycle).

Prices are embedded as rationals (`ℚ`); Python strings are embedded as
Lean `String`, with Python `str.lower()` embedded as a character-wise
`Char.toLower` map (all catalog data is ASCII).
-/

namespace FastApiObs

/-- A catalog entry: the dictionaries `{"name": ..., "price": ...}` of
`FAKE_ITEMS_DB` values and `ALL_ITEMS` elements in `src/main.py`. -/
structure CatalogItem where
  name : String
  price : ℚ
deriving DecidableEq, Repr

/-- The id-keyed catalog `FAKE_ITEMS_DB` of `src/main.py` (lines 65-69),
embedded as an association list from integer id to entry. -/
def FAKE_ITEMS_DB : List (ℤ × CatalogItem) :=
  [(1, ⟨"laptop", 1200⟩), (2, ⟨"mouse", 25⟩), (3, ⟨"keyboard", 75⟩)]

/-- The ordered search list `ALL_ITEMS` of `src/main.py` (lines 71-77). -/
def ALL_ITEMS : List CatalogItem :=
  [⟨"laptop", 1200⟩, ⟨"mouse", 25⟩, ⟨"keyboard", 75⟩,
   ⟨"monitor", 300⟩, ⟨"webcam", 50⟩]

/-- Python dict membership/lookup (`item_id in FAKE_ITEMS_DB`,
`FAKE_ITEMS_DB[item_id]`) on the association-list embedding. -/
def dbLookup : List (ℤ × CatalogItem) → ℤ → Option CatalogItem
  | [], _ => none
  | (k, v) :: rest, id => if k = id then some v else dbLookup rest id

/-- The pydantic request model `Item` of `src/main.py` (lines 80-83):
`name: str`, `price: float`, `is_offer: Optional[bool] = None`. -/
structure Item where
  name : String
  price : ℚ
  is_offer : Option Bool := none
deriving DecidableEq, Repr

/-- Boolean test that `pre` is a prefix of the second list (used to embed
Python's substring operator). -/
def isPrefixList : List Char → List Char → Bool
  | [], _ => true
  | _ :: _, [] => false
  | a :: as, b :: bs => a == b && isPrefixList as bs

/-- Boolean substring containment: `needle` occurs contiguously inside
`hay` (Python's `needle in hay` on strings). -/
def hasSubstr : List Char → List Char → Bool
  | [], needle => needle.isEmpty
  | c :: t, needle => isPrefixList needle (c :: t) || hasSubstr t needle

/-- Python `s.lower()` character data: `Char.toLower` mapped over the
string's characters. -/
def lowerStr (s : String) : List Char :=
  s.data.map Char.toLower

/-- Case-insensitive substring test, the embedding of
`sub.lower() in hay.lower()` from `search_items`. -/
def strContainsCI (hay sub : String) : Bool :=
  hasSubstr (lowerStr hay) (lowerStr sub)

/-- The HTTP responses the handlers of `src/main.py` can produce, one
constructor per response shape; `errorR` is a raised `HTTPException`
(status code plus `detail` string). -/
inductive Response
  | rootR (message : String)
  | itemR (item_id : ℤ) (name : String) (price : ℚ)
  | searchR (search_results : List CatalogItem)
  | createR (message : String) (item : Item)
  | statusR (status version : String)
  | errorR (status : Nat) (detail : String)
deriving DecidableEq, Repr

/-- The HTTP status code of a response: success bodies are served with
200, a raised `HTTPException` carries its own status code. -/
def statusCode : Response → Nat
  | .errorR s _ => s
  | _ => 200

/-- Handler `read_root` (`GET /`), `src/main.py` lines 88-90. -/
def read_root : Response :=
  .rootR "Welcome to the FastAPI application!"

/-- Handler `read_item` (`GET /items/{item_id}`), `src/main.py` lines
93-97: 404 `"Item not found"` when the id is not a key of
`FAKE_ITEMS_DB`, otherwise `{item_id, name, price}`. -/
def read_item (item_id : ℤ) : Response :=
  match dbLookup FAKE_ITEMS_DB item_id with
  | none => .errorR 404 "Item not found"
  | some it => .itemR item_id it.name it.price

/-- The list comprehension inside handler `search_items`
(`GET /search/`), `src/main.py` lines 100-110: keep the items of
`ALL_ITEMS` for which (`name` is absent or the lower-cased query is a
substring of the lower-cased item name) and `price >= min_price`. -/
def search_items (name : Option String) (min_price : ℚ) : List CatalogItem :=
  ALL_ITEMS.filter fun item =>
    (match name with
     | none => true
     | some n => strContainsCI item.name n)
    && decide (item.price ≥ min_price)

/-- Handler `search_items` wrapped as a response
(`{"search_results": results}`). -/
def search_items_response (name : Option String) (min_price : ℚ) : Response :=
  .searchR (search_items name min_price)

/-- Handler `create_item` (`POST /items/`), `src/main.py` lines 113-115:
pure echo of the validated body. -/
def create_item (item : Item) : Response :=
  .createR "Item created successfully" item

/-- Handler `get_status` (`GET /status`), `src/main.py` lines 118-120. -/
def get_status : Response :=
  .statusR "healthy" "1.0"

/-- Handler `get_error_500` (`GET /error-500`), `src/main.py` lines
123-125: unconditionally raises `HTTPException(500, "Internal Server Error")`. -/
def get_error_500 : Response :=
  .errorR 500 "Internal Server Error"

/-- Handler `get_error_400` (`GET /error-400`), `src/main.py` lines
128-130: unconditionally raises `HTTPException(400, "Bad Request")`. -/
def get_error_400 : Response :=
  .errorR 400 "Bad Request"

/-- The module-level state the handlers of `src/main.py` read: the two
catalog globals. No handler ever assigns to them. -/
structure ServerState where
  db : List (ℤ × CatalogItem)
  items : List CatalogItem
deriving DecidableEq, Repr

/-- The state at process start: the catalog literals of `src/main.py`. -/
def initState : ServerState :=
  ⟨FAKE_ITEMS_DB, ALL_ITEMS⟩

/-- One validated inbound request, one constructor per route of
`src/main.py`. -/
inductive Request
  | root
  | getItem (id : ℤ)
  | searchReq (name : Option String) (min_price : ℚ)
  | postItem (item : Item)
  | statusReq
  | err500
  | err400
deriving DecidableEq, Repr

/-- Request dispatch over the explicit server state: each branch is the
corresponding handler body of `src/main.py`, reading the catalog from the
state. No branch writes to the state. -/
def handle : ServerState → Request → ServerState × Response
  | s, .root => (s, .rootR "Welcome to the FastAPI application!")
  | s, .getItem id =>
      (s, match dbLookup s.db id with
          | none => .errorR 404 "Item not found"
          | some it => .itemR id it.name it.price)
  | s, .searchReq name mp =>
      (s, .searchR (s.items.filter fun item =>
            (match name with
             | none => true
             | some n => strContainsCI item.name n)
            && decide (item.price ≥ mp)))
  | s, .postItem it => (s, .createR "Item created successfully" it)
  | s, .statusReq => (s, .statusR "healthy" "1.0")
  | s, .err500 => (s, .errorR 500 "Internal Server Error")
  | s, .err400 => (s, .errorR 400 "Bad Request")

/-- The server state after serving a sequence of requests. -/
def stateAfter (s : ServerState) : List Request → ServerState
  | [] => s
  | r :: rs => stateAfter (handle s r).1 rs

/-- JSON values as they reach the request validator (the catalog and the
`Item` body schema need no nested objects or arrays). -/
inductive JValue
  | jnull
  | jbool (b : Bool)
  | jnum (q : ℚ)
  | jstr (s : String)
deriving DecidableEq, Repr

/-- First-match field lookup in a decoded JSON object (Python dicts hold
each key once). -/
def lookupField : List (String × JValue) → String → Option JValue
  | [], _ => none
  | (k, v) :: rest, key => if k = key then some v else lookupField rest key

/-- Modelled from the spec: the request-validator decode step for the
`Item` body schema is performed by the web framework, outside
`src/main.py`. Per spec §4.1: body field `name` (string, required),
`price` (float, required), `is_offer` (optional bool, default
absent/null); no value bounds are enforced. -/
def decodeItem (body : List (String × JValue)) : Except String Item :=
  match lookupField body "name" with
  | some (.jstr n) =>
      match lookupField body "price" with
      | some (.jnum p) =>
          match lookupField body "is_offer" with
          | none => .ok ⟨n, p, none⟩
          | some .jnull => .ok ⟨n, p, none⟩
          | some (.jbool b) => .ok ⟨n, p, some b⟩
          | some _ => .error "is_offer: value is not a valid boolean"
      | _ => .error "price: value is not a valid float"
  | _ => .error "name: value is not a valid string"

/-- The spec's type-level well-formedness condition on an `Item` body,
stated independently of the decoder: `name` present as a string, `price`
present as a number, `is_offer` absent, null, or a boolean. -/
def wellTypedItemBody (body : List (String × JValue)) : Prop :=
  (∃ n, lookupField body "name" = some (.jstr n)) ∧
  (∃ p, lookupField body "price" = some (.jnum p)) ∧
  (lookupField body "is_offer" = none ∨
   lookupField body "is_offer" = some .jnull ∨
   ∃ b, lookupField body "is_offer" = some (.jbool b))

/-- `POST /items/` as the client sees it: validation first (a failure is
surfaced as HTTP 422), then the `create_item` handler. -/
def validate_then_create (body : List (String × JValue)) : Response :=
  match decodeItem body with
  | .ok it => create_item it
  | .error e => .errorR 422 e

/-- Decimal digit value of a character, `none` for non-digits. -/
def digitVal (c : Char) : Option Nat :=
  if '0' ≤ c ∧ c ≤ '9' then some (c.toNat - '0'.toNat) else none

/-- Base-10 value of a digit list (digits already checked). -/
def natOfDigits (l : List Char) : Nat :=
  l.foldl (fun acc c => acc * 10 + ((digitVal c).getD 0)) 0

/-- Modelled from the spec: the path-parameter coercion for
`/items/{item_id}` is performed by the web framework, outside
`src/main.py`. Per spec §4.1 the raw path segment must parse as an
integer (an optional minus sign and at least one decimal digit);
anything else is a validation failure. -/
def parseIntStr (s : String) : Option ℤ :=
  match s.data with
  | [] => none
  | '-' :: rest =>
      if rest ≠ [] ∧ rest.all (fun c => (digitVal c).isSome)
      then some (-(natOfDigits rest : ℤ)) else none
  | l =>
      if l.all (fun c => (digitVal c).isSome)
      then some ((natOfDigits l : ℤ)) else none

/-- `GET /items/{raw}` as the client sees it: integer coercion of the
path segment first (a failure is surfaced as HTTP 422), then the
`read_item` handler. -/
def validate_then_read (raw : String) : Response :=
  match parseIntStr raw with
  | some id => read_item id
  | none => .errorR 422 "item_id: value is not a valid integer"

/-- Outcome of handing one finished span batch to the exporter. -/
inductive ExportOutcome
  | exported
  | exportFailure
deriving DecidableEq, Repr

/-- Modelled from the spec: the OTLP exporter configured at
`src/main.py` lines 22-25 delivers spans to the collector endpoint; when
the collector is unreachable the export fails, and per spec §7 the
failure is logged, never surfaced to the HTTP client. -/
def exportSpan (collectorUp : Bool) : ExportOutcome :=
  if collectorUp then .exported else .exportFailure

/-- Result of one observed request: the HTTP response, the server state
afterwards, and what became of the request's span. -/
structure Traced where
  response : Response
  finalState : ServerState
  spanOutcome : ExportOutcome
deriving DecidableEq, Repr

/-- Modelled from the spec: the observability middleware (the span
processor registered at `src/main.py` lines 33-35 together with the
metrics instrumentation) wraps each handler invocation; the handler's
response is computed first and the finished span is handed to the
exporter afterwards, so the export outcome never feeds back into the
response. -/
def runWithObservability (collectorUp : Bool) (s : ServerState) (r : Request) :
    Traced :=
  let out := handle s r
  { response := out.2, finalState := out.1, spanOutcome := exportSpan collectorUp }

/-- The four lifecycle phases of spec §4.4. -/
inductive LifePhase
  | notStarted
  | running
  | draining
  | stopped
deriving DecidableEq, Repr

/-- Lifecycle-manager state: current phase, spans buffered by the batch
span processor, spans already exported, and whether the exporter
connection is open. -/
structure LifeState where
  phase : LifePhase
  buffered : List Nat
  exported : List Nat
  exporterOpen : Bool
deriving DecidableEq, Repr

/-- Modelled from the spec: the lifecycle state machine of §4.4, the
startup/shutdown behavior around the `lifespan` hook of `src/main.py`
lines 39-51 (the span-processor drain itself lives in the tracing
library, outside `src/main.py`). Transitions: start opens the exporter
and enters Running; spans are accepted only while Running; the shutdown
signal enters Draining; Draining flushes the buffered spans to the
exporter; the exporter connection is released only once the buffer is
flushed, reaching Stopped. -/
inductive LifeStep : LifeState → LifeState → Prop
  | start (b e : List Nat) :
      LifeStep ⟨.notStarted, b, e, false⟩ ⟨.running, b, e, true⟩
  | accept (sp : Nat) (b e : List Nat) :
      LifeStep ⟨.running, b, e, true⟩ ⟨.running, sp :: b, e, true⟩
  | shutdownSignal (b e : List Nat) :
      LifeStep ⟨.running, b, e, true⟩ ⟨.draining, b, e, true⟩
  | flush (b e : List Nat) :
      LifeStep ⟨.draining, b, e, true⟩ ⟨.draining, [], e ++ b, true⟩
  | release (e : List Nat) :
      LifeStep ⟨.draining, [], e, true⟩ ⟨.stopped, [], e, false⟩

/-- The spec's search predicate on the name filter, as a proposition:
the filter is absent, or the case-folded query occurs in the case-folded
item name. -/
def nameMatches : Option String → CatalogItem → Prop
  | none, _ => True
  | some n, it => strContainsCI it.name n = true

/- ------------------------------------------------------------------ -/
/- Helper lemmas                                                       -/
/- ------------------------------------------------------------------ -/

/-- The empty needle occurs in every haystack. -/
theorem hasSubstr_nil_needle (hay : List Char) : hasSubstr hay [] = true := by
  induction hay with
  | nil => rfl
  | cons c t ih => simp [hasSubstr, isPrefixList]

/-- Every search-list price is at most the laptop's 1200. -/
theorem all_items_price_le (a : CatalogItem) (ha : a ∈ ALL_ITEMS) :
    a.price ≤ 1200 := by
  simp only [ALL_ITEMS, List.mem_cons, List.not_mem_nil, or_false] at ha
  rcases ha with rfl | rfl | rfl | rfl | rfl <;> norm_num

/-- Every search-list price is positive. -/
theorem all_items_price_pos (a : CatalogItem) (ha : a ∈ ALL_ITEMS) :
    0 < a.price := by
  simp only [ALL_ITEMS, List.mem_cons, List.not_mem_nil, or_false] at ha
  rcases ha with rfl | rfl | rfl | rfl | rfl <;> norm_num

/-- Dispatch never writes to the server state. -/
theorem handle_fst (s : ServerState) (r : Request) : (handle s r).1 = s := by
  cases r <;> rfl

/- ------------------------------------------------------------------ -/
/- Claim theorems                                                      -/
/- ------------------------------------------------------------------ -/

/-- C2: `GET /items/{id}` returns the stored record with status 200 for
ids 1, 2, 3 (in particular `{item_id: 2, name: "mouse", price: 25}` for
id 2) and fails with 404 and detail `"Item not found"` for every other
integer id. -/
theorem read_item_catalog_spec (id : ℤ) :
    (id = 1 → read_item id = .itemR 1 "laptop" 1200) ∧
    (id = 2 → read_item id = .itemR 2 "mouse" 25) ∧
    (id = 3 → read_item id = .itemR 3 "keyboard" 75) ∧
    (∀ n p i, read_item id = .itemR i n p → statusCode (read_item id) = 200) ∧
    (id ≠ 1 → id ≠ 2 → id ≠ 3 →
      read_item id = .errorR 404 "Item not found" ∧
      statusCode (read_item id) = 404) := by
  refine ⟨?_, ?_, ?_, ?_, ?_⟩
  · rintro rfl; rfl
  · rintro rfl; rfl
  · rintro rfl; rfl
  · intro n p i h; rw [h]; rfl
  · intro h1 h2 h3
    have : read_item id = .errorR 404 "Item not found" := by
      simp [read_item, dbLookup, FAKE_ITEMS_DB, Ne.symm h1, Ne.symm h2, Ne.symm h3]
    exact ⟨this, by rw [this]; rfl⟩

/-- C2 witness: the general lookup theorem instantiated at ids 2 and 99. -/
theorem read_item_catalog_spec_witness :
    read_item 2 = .itemR 2 "mouse" 25 ∧
    read_item 99 = .errorR 404 "Item not found" :=
  ⟨(read_item_catalog_spec 2).2.1 rfl,
   ((read_item_catalog_spec 99).2.2.2.2 (by decide) (by decide) (by decide)).1⟩

/-- C5: `GET /error-500` always fails with status 500 and detail
`"Internal Server Error"`, `GET /error-400` always fails with status 400
and detail `"Bad Request"`; neither ever yields a success response, and
dispatch gives the same answer from every server state. -/
theorem error_routes_spec :
    get_error_500 = .errorR 500 "Internal Server Error" ∧
    get_error_400 = .errorR 400 "Bad Request" ∧
    statusCode get_error_500 = 500 ∧
    statusCode get_error_400 = 400 ∧
    statusCode get_error_500 ≠ 200 ∧
    statusCode get_error_400 ≠ 200 ∧
    (∀ s : ServerState,
      handle s .err500 = (s, .errorR 500 "Internal Server Error") ∧
      handle s .err400 = (s, .errorR 400 "Bad Request")) :=
  ⟨rfl, rfl, rfl, rfl, by decide, by decide, fun _ => ⟨rfl, rfl⟩⟩

/-- C9: the id-keyed catalog covers exactly ids 1, 2, 3 while the search
list has five entries; `"monitor"` and `"webcam"` appear in an
unfiltered search, yet ids 4 and 5 answer 404 `"Item not found"`. -/
theorem searchable_not_retrievable_spec :
    FAKE_ITEMS_DB.map Prod.fst = [1, 2, 3] ∧
    ALL_ITEMS.length = 5 ∧
    (⟨"monitor", 300⟩ : CatalogItem) ∈ search_items none 0 ∧
    (⟨"webcam", 50⟩ : CatalogItem) ∈ search_items none 0 ∧
    read_item 4 = .errorR 404 "Item not found" ∧
    read_item 5 = .errorR 404 "Item not found" ∧
    dbLookup FAKE_ITEMS_DB 4 = none ∧
    dbLookup FAKE_ITEMS_DB 5 = none := by
  decide

/-- C10: searching with the empty query string behaves exactly like
omitting the `name` parameter, for every `min_price`. -/
theorem empty_query_spec (mp : ℚ) :
    search_items (some "") mp = search_items none mp := by
  unfold search_items
  apply List.filter_congr
  intro a _
  simp [strContainsCI, show lowerStr "" = [] from rfl, hasSubstr_nil_needle]

/-- C1: the search result is a sublist of `ALL_ITEMS` (catalog insertion
order, no re-sorting) holding exactly the items whose name passes the
case-folded substring filter and whose price is at least `min_price`
(inclusive); any `min_price` above the maximum catalog price 1200 gives
the empty result, and any `min_price ≤ 0` with the filter absent gives
the full list. -/
theorem search_items_filter_spec (name : Option String) (mp : ℚ) :
    (search_items name mp).Sublist ALL_ITEMS ∧
    (∀ it : CatalogItem,
      it ∈ search_items name mp ↔
        it ∈ ALL_ITEMS ∧ nameMatches name it ∧ mp ≤ it.price) ∧
    (1200 < mp → search_items name mp = []) ∧
    (mp ≤ 0 → search_items none mp = ALL_ITEMS) := by
  refine ⟨List.filter_sublist _, ?_, ?_, ?_⟩
  · intro it
    rw [search_items, List.mem_filter]
    cases name with
    | none => simp [nameMatches, ge_iff_le]
    | some n => simp [nameMatches, ge_iff_le, and_assoc]
  · intro h
    rw [search_items, List.filter_eq_nil_iff]
    intro a ha
    simp only [Bool.and_eq_true, decide_eq_true_eq, ge_iff_le, not_and]
    intro _ hp
    have := all_items_price_le a ha
    linarith
  · intro h
    rw [search_items, List.filter_eq_self]
    intro a ha
    simp only [Bool.true_and]
    have := all_items_price_pos a ha
    exact decide_eq_true (by linarith)

/-- C1 witness: the filter theorem instantiated at `min_price` 2000
(above every price) and at `min_price` -1 (at most zero). -/
theorem search_items_filter_spec_witness :
    search_items none 2000 = [] ∧ search_items none (-1) = ALL_ITEMS :=
  ⟨(search_items_filter_spec none 2000).2.2.1 (by norm_num),
   (search_items_filter_spec none (-1)).2.2.2 (by norm_num)⟩

/-- C7: serving any sequence of requests leaves the server state — the
id-keyed catalog and the search list — exactly as built at startup, and
every later request is answered exactly as it would have been at
startup; in particular no posted item is ever stored or retrievable. -/
theorem catalog_immutable_spec (l : List Request) :
    stateAfter initState l = initState ∧
    (stateAfter initState l).db = FAKE_ITEMS_DB ∧
    (stateAfter initState l).items = ALL_ITEMS ∧
    (∀ r, handle (stateAfter initState l) r = handle initState r) ∧
    (∀ (it : Item) (r : Request),
      handle (stateAfter initState (l ++ [.postItem it])) r = handle initState r) := by
  have key : ∀ (s : ServerState) (l : List Request), stateAfter s l = s := by
    intro s l
    induction l generalizing s with
    | nil => rfl
    | cons r rs ih => rw [stateAfter, handle_fst]; exact ih s
  rw [key]
  exact ⟨rfl, rfl, rfl, fun _ => rfl, fun it r => by rw [key]⟩

/-- C4: for every server state and request, running the handler with the
span collector reachable and with it unreachable produces the same
response, status code and final state; the export failure stays inside
the observability layer. -/
theorem export_noninterference_spec (s : ServerState) (r : Request) :
    (runWithObservability true s r).response =
      (runWithObservability false s r).response ∧
    statusCode (runWithObservability true s r).response =
      statusCode (runWithObservability false s r).response ∧
    (runWithObservability true s r).finalState =
      (runWithObservability false s r).finalState ∧
    (runWithObservability false s r).spanOutcome = .exportFailure ∧
    (runWithObservability true s r).response = (handle s r).2 :=
  ⟨rfl, rfl, rfl, rfl, rfl⟩

/-- A successful decode of a body with no `is_offer` field leaves the
model default `none` in the decoded record. -/
theorem decodeItem_ok_is_offer (body : List (String × JValue)) (it : Item)
    (hd : decodeItem body = .ok it)
    (habs : lookupField body "is_offer" = none) : it.is_offer = none := by
  unfold decodeItem at hd
  rcases hn : lookupField body "name" with _ | vn <;> rw [hn] at hd
  · exact Except.noConfusion hd
  · cases vn <;> try exact Except.noConfusion hd
    rcases hp : lookupField body "price" with _ | vp <;> rw [hp] at hd
    · exact Except.noConfusion hd
    · cases vp <;> try exact Except.noConfusion hd
      rw [habs] at hd
      cases hd
      rfl

/-- Decoding succeeds exactly on type-level well-formed bodies. -/
theorem decodeItem_ok_iff (body : List (String × JValue)) :
    (∃ it, decodeItem body = .ok it) ↔ wellTypedItemBody body := by
  unfold decodeItem wellTypedItemBody
  rcases hn : lookupField body "name" with _ | vn
  · simp
  · cases vn with
    | jstr n =>
      rcases hp : lookupField body "price" with _ | vp
      · simp
      · cases vp with
        | jnum p =>
          rcases ho : lookupField body "is_offer" with _ | vo
          · simp
          · cases vo <;> simp
        | jnull => simp
        | jbool b => simp
        | jstr s2 => simp
    | jnull => simp
    | jnum q => simp
    | jbool b => simp

/-- C3: `POST /items/` echoes every validated body back unchanged with
message `"Item created successfully"` and status 200; a body without an
`is_offer` field decodes with `is_offer = none` (serialized as null);
in particular `{"name": "tablet", "price": 499.99}` yields item
`{name: "tablet", price: 499.99, is_offer: null}`. -/
theorem create_item_echo_spec :
    (∀ it : Item,
      create_item it = .createR "Item created successfully" it ∧
      statusCode (create_item it) = 200) ∧
    (∀ (body : List (String × JValue)) (it : Item),
      decodeItem body = .ok it → lookupField body "is_offer" = none →
        it.is_offer = none) ∧
    decodeItem [("name", .jstr "tablet"), ("price", .jnum (499.99 : ℚ))] =
      .ok ⟨"tablet", 499.99, none⟩ ∧
    create_item ⟨"tablet", (499.99 : ℚ), none⟩ =
      .createR "Item created successfully" ⟨"tablet", 499.99, none⟩ :=
  ⟨fun _ => ⟨rfl, rfl⟩,
   fun body it hd habs => decodeItem_ok_is_offer body it hd habs,
   rfl, rfl⟩

/-- C3 witness: the echo theorem applied to the concrete tablet body. -/
theorem create_item_echo_spec_witness :
    Item.is_offer ⟨"tablet", (499.99 : ℚ), none⟩ = none :=
  create_item_echo_spec.2.1
    [("name", .jstr "tablet"), ("price", .jnum (499.99 : ℚ))]
    ⟨"tablet", 499.99, none⟩ rfl rfl

/-- C6: `POST /items/` is rejected with 422 exactly when the body is
malformed at the type level; no value bounds are checked, so a negative
price or an empty name is accepted with 200 and echoed unchanged, the
search route accepts every negative `min_price` (returning the full
list), and a non-integer path segment for `/items/{item_id}` is a 422
while an integer one reaches the handler. -/
theorem validation_permissive_spec :
    (∀ body, statusCode (validate_then_create body) = 422 ↔
      ¬ wellTypedItemBody body) ∧
    (∀ (n : String) (p : ℚ),
      validate_then_create [("name", .jstr n), ("price", .jnum p)] =
        .createR "Item created successfully" ⟨n, p, none⟩) ∧
    validate_then_create [("name", .jstr ""), ("price", .jnum (-5))] =
      .createR "Item created successfully" ⟨"", -5, none⟩ ∧
    (∀ mp : ℚ, mp < 0 → search_items none mp = ALL_ITEMS) ∧
    validate_then_read "abc" = .errorR 422 "item_id: value is not a valid integer" ∧
    statusCode (validate_then_read "abc") = 422 ∧
    validate_then_read "2" = .itemR 2 "mouse" 25 ∧
    statusCode (validate_then_read "2") = 200 := by
  refine ⟨?_, ?_, rfl, ?_, rfl, rfl, rfl, rfl⟩
  · intro body
    rw [← decodeItem_ok_iff]
    unfold validate_then_create
    rcases hd : decodeItem body with e | it
    · simp [hd, statusCode]
    · simp [hd, create_item, statusCode]
  · intro n p
    rfl
  · intro mp hmp
    rw [search_items, List.filter_eq_self]
    intro a ha
    simp only [Bool.true_and]
    have := all_items_price_pos a ha
    exact decide_eq_true (by linarith)

/-- C6 witness: permissiveness instantiated at concrete inputs — a
negative `min_price` and an arbitrary well-typed body. -/
theorem validation_permissive_spec_witness :
    search_items none (-3) = ALL_ITEMS ∧
    validate_then_create [("name", .jstr "x"), ("price", .jnum 7)] =
      .createR "Item created successfully" ⟨"x", 7, none⟩ :=
  ⟨validation_permissive_spec.2.2.2.1 (-3) (by norm_num),
   validation_permissive_spec.2.1 "x" 7⟩

/-- C8: the lifecycle advances only along NotStarted → Running →
Draining → Stopped; the span buffer grows only while Running (so no new
span is accepted once Draining begins), and Stopped is reached only
from Draining, with the buffer already flushed into the exported spans
and the exporter connection released. -/
theorem lifecycle_shutdown_spec (s s' : LifeState) (h : LifeStep s s') :
    (s'.phase = .stopped →
      s.phase = .draining ∧ s'.buffered = [] ∧ s.buffered = [] ∧
      s'.exporterOpen = false ∧ s'.exported = s.exported) ∧
    (s.buffered.length < s'.buffered.length →
      s.phase = .running ∧ s'.phase = .running) ∧
    ((s.phase = .draining ∨ s.phase = .stopped) →
      ∀ sp, sp ∈ s'.buffered → sp ∈ s.buffered) ∧
    (s.phase = .notStarted → s'.phase = .running) ∧
    (s.phase = .running → s'.phase = .running ∨ s'.phase = .draining) ∧
    (s.phase = .draining → s'.phase = .draining ∨ s'.phase = .stopped) ∧
    s.phase ≠ .stopped ∧
    (s.phase = .draining → s'.buffered = [] → s'.phase = .draining →
      s'.exported = s.exported ++ s.buffered) := by
  cases h <;> simp

/-- C8 witness: the shutdown theorem applied to the concrete release
step out of a drained state. -/
theorem lifecycle_shutdown_spec_witness :
    LifeState.phase ⟨.draining, [], [7], true⟩ = .draining ∧
    LifeState.exporterOpen ⟨.stopped, [], [7], false⟩ = false :=
  have h := lifecycle_shutdown_spec ⟨.draining, [], [7], true⟩
    ⟨.stopped, [], [7], false⟩ (LifeStep.release [7])
  ⟨(h.1 rfl).1, (h.1 rfl).2.2.2.1⟩

end FastApiObs
